import Mathlib

/-!
Verification of the Story-Speeks conversion pipeline and job-state engine.

This file gives a shallow embedding, in Lean 4, of the Python source under
backend/app: the job registry (services/job_manager.py), the pipeline
orchestrator and chunk worker pool (core/tasks.py), the audio assembler
wrapper around the external muxer (combine_audio_chunks), and the path
conventions of the upload endpoint (api/v1/endpoints.py).  Python dicts are
modelled as association lists, the file system as a list of path strings,
exceptions as Except, and external capabilities (uuid generation, the TTS
synthesizer, the ffmpeg muxer process) as oracle inputs.
-/

namespace StorySpeeks

/-- Embedding of JobStatusEnum from models/schemas.py. -/
inductive JobStatusEnum where
  | pending
  | processing
  | complete
  | failed
deriving DecidableEq, Repr

/-- One record of the job registry: the dict literal built by
JobManager.create_job has keys status, message, filename; tasks.py reads an
additional voice key via job_details.get, so the record carries an optional
voice field (absent = the dict has no such key, Python .get returns None). -/
structure Job where
  status : JobStatusEnum
  message : String
  filename : Option String
  voice : Option String
deriving DecidableEq, Repr

/-- The registry dictionary self._jobs, a Python dict from job id strings to
job records, modelled as an association list with dict semantics. -/
abbrev JobsDict : Type := List (String × Job)

/-- Python dict assignment d[k] = v: replace the value in place if the key is
present (insertion order preserved), otherwise append the new binding at the
end.  Python dicts never hold a key twice, so replacing the first binding is
the dict semantics. -/
def dictSet (d : JobsDict) (k : String) (v : Job) : JobsDict :=
  match d with
  | [] => [(k, v)]
  | p :: rest => if p.1 = k then (k, v) :: rest else p :: dictSet rest k v

/-- Python truthiness of an optional string argument: None and the empty
string are falsy, every other string is truthy.  This is the test performed
by the lines "if message:" and "if filename:" in update_job_status. -/
def truthy : Option String → Bool
  | none => false
  | some s => !s.isEmpty

/-- Embedding of JobManager.create_job (services/job_manager.py lines 18-26).
The uuid4-generated id is passed in as the oracle argument job_id.  Note the
Python method takes no voice parameter and the dict literal it stores has no
voice key, so the stored record has voice = none. -/
def create_job (jobs : JobsDict) (job_id : String) : String × JobsDict :=
  (job_id,
    dictSet jobs job_id
      { status := JobStatusEnum.pending
        message := "Job created, waiting to start."
        filename := none
        voice := none })

/-- Embedding of JobManager.get_job: Python dict .get, returning None when
the id is unknown. -/
def get_job (jobs : JobsDict) (job_id : String) : Option Job :=
  jobs.lookup job_id

/-- The field mutations performed by update_job_status on a record that is
present: status is assigned unconditionally; message and filename are
assigned only when truthy (Python "if message:" / "if filename:"), so None
and the empty string leave the old value; the voice key is never touched. -/
def applyUpdate (j : Job) (status : JobStatusEnum)
    (message filename : Option String) : Job :=
  { j with
    status := status
    message := if truthy message then message.getD j.message else j.message
    filename := if truthy filename then filename else j.filename }

/-- Embedding of JobManager.update_job_status (services/job_manager.py lines
32-42).  Returns the new dictionary together with the list of lines printed:
when the id is unknown the dict is left untouched and a diagnostic line is
printed; the method never raises, which the embedding reflects by being a
total function into a plain pair (no Except). -/
def update_job_status (jobs : JobsDict) (job_id : String)
    (status : JobStatusEnum) (message filename : Option String) :
    JobsDict × List String :=
  match jobs.lookup job_id with
  | some j => (dictSet jobs job_id (applyUpdate j status message filename), [])
  | none => (jobs, ["Error: Job ID " ++ job_id ++ " not found for update."])

/-- A single-quote character, used when embedding Python strings that quote a
path or an identifier. -/
def squote : String := String.singleton (Char.ofNat 39)

/-- Parameter names of JobManager.create_job besides self, read off its
signature (services/job_manager.py line 18): it declares no parameter. -/
def create_job_param_names : List String := []

/-- Python binding of keyword arguments at a call site: a keyword that does
not name a declared parameter makes the call raise TypeError before the
function body runs. -/
def bindKwargs (fname : String) (params kwargs : List String) :
    Except String Unit :=
  match kwargs.find? (fun k => !params.contains k) with
  | some k =>
      Except.error (fname ++ "() got an unexpected keyword argument "
        ++ squote ++ k ++ squote)
  | none => Except.ok ()

/-- Embedding of JobManager.__new__ (services/job_manager.py lines 10-16):
the class attribute _instance starts as None at process start; the first
construction stores a freshly allocated object (identity given by the oracle
argument fresh) under double-checked locking; every later construction
returns the stored object.  Returns the object the constructor yields and
the new _instance attribute. -/
def JobManager_new (instanceVar : Option Nat) (fresh : Nat) :
    Nat × Option Nat :=
  match instanceVar with
  | none => (fresh, some fresh)
  | some i => (i, some i)

/-- A heap mapping object identities to their _jobs dictionaries; method
calls on a JobManager object read and write the _jobs dict of that object. -/
def heapCreateJob (heap : Nat → JobsDict) (inst : Nat) (job_id : String) :
    String × (Nat → JobsDict) :=
  let r := create_job (heap inst) job_id
  (r.1, fun i => if i = inst then r.2 else heap i)

def heapGetJob (heap : Nat → JobsDict) (inst : Nat) (job_id : String) :
    Option Job :=
  get_job (heap inst) job_id

/-- The job state machine of the spec: a status update either repeats the
current status or takes one of the transitions PENDING to PROCESSING,
PROCESSING to COMPLETE, PROCESSING to FAILED. -/
def allowedTransition (a b : JobStatusEnum) : Prop :=
  a = b
    ∨ (a = JobStatusEnum.pending ∧ b = JobStatusEnum.processing)
    ∨ (a = JobStatusEnum.processing
        ∧ (b = JobStatusEnum.complete ∨ b = JobStatusEnum.failed))

/-- Directory constant UPLOAD_DIR of core/tasks.py. -/
def UPLOAD_DIR : String := "backend/data/uploads"

/-- Directory constant PROCESSING_DIR of core/tasks.py. -/
def PROCESSING_DIR : String := "backend/data/processing"

/-- Directory constant FINAL_AUDIO_DIR of core/tasks.py. -/
def FINAL_AUDIO_DIR : String := "backend/data/final_audio"

/-- The pathlib slash operator: dir / name. -/
def joinPath (dir name : String) : String := dir ++ "/" ++ name

/-- Path of the chunk audio file written by process_chunk (tasks.py line
147): PROCESSING_DIR / (job_id)_chunk_(index).mp3. -/
def chunk_filename (job_id : String) (index : Nat) : String :=
  joinPath PROCESSING_DIR (job_id ++ "_chunk_" ++ toString index ++ ".mp3")

/-- Final artifact file name (tasks.py line 193): (job_id).mp3. -/
def final_audio_filename (job_id : String) : String := job_id ++ ".mp3"

/-- Final artifact path (tasks.py line 194). -/
def final_audio_path (job_id : String) : String :=
  joinPath FINAL_AUDIO_DIR (final_audio_filename job_id)

/-- Path of the uploaded source file (endpoints.py line 78): UPLOAD_DIR
joined with the client-supplied file name; note no job id occurs in it. -/
def upload_file_location (filename : String) : String :=
  joinPath UPLOAD_DIR filename

/-- Python Path.with_suffix applied with suffix .txt to a path whose name
ends in a four-character extension such as .mp3: the extension is replaced,
which on the paths the program builds drops the last four characters and
appends .txt.  Used by combine_audio_chunks (tasks.py line 48). -/
def with_suffix_txt (path : String) : String :=
  String.mk (path.data.take (path.data.length - 4)) ++ ".txt"

/-- Outcome of one run of the external ffmpeg muxer process: its exit code
and the captured stderr bytes, decoded. -/
structure MuxRun where
  exitCode : Nat
  stderr : String
deriving DecidableEq, Repr

/-- Lines written to the ffmpeg concat manifest (tasks.py lines 52-55): one
line per chunk path, in the order of the given list. -/
def manifest_lines (chunk_paths : List String) : List String :=
  chunk_paths.map (fun p => "file " ++ squote ++ p ++ squote)

/-- Creating a file on the modelled file system: the set of existing paths
gains the path. -/
def addFile (fs : List String) (p : String) : List String :=
  if p ∈ fs then fs else fs ++ [p]

/-- Removing a file from the modelled file system. -/
def removeFile (fs : List String) (p : String) : List String :=
  fs.filter (fun q => q ≠ p)

def addFiles (fs : List String) (ps : List String) : List String :=
  ps.foldl addFile fs

/-- Python str(e) for a subprocess.CalledProcessError, used by
combine_audio_chunks when the captured stderr is empty. -/
def calledProcessErrorStr (exitCode : Nat) : String :=
  "Command ffmpeg returned non-zero exit status " ++ toString exitCode ++ "."

/-- Embedding of combine_audio_chunks (tasks.py lines 42-89).  The function
writes the manifest list file, runs the external ffmpeg process (its outcome
is the oracle argument mux), raises RuntimeError with the decoded stderr on a
non-zero exit, and in the finally block removes the list file on every path.
The result is ((file system after the call, manifest lines written), normal
return or raised error). -/
def combine_audio_chunks (fs : List String) (chunk_paths : List String)
    (final_path : String) (mux : MuxRun) :
    (List String × List String) × Except String Unit :=
  let list_file_path := with_suffix_txt final_path
  let fs1 := addFile fs list_file_path
  if mux.exitCode = 0 then
    let fs2 := addFile fs1 final_path
    ((removeFile fs2 list_file_path, manifest_lines chunk_paths),
      Except.ok ())
  else
    let error_msg :=
      if mux.stderr.isEmpty then calledProcessErrorStr mux.exitCode
      else mux.stderr
    ((removeFile fs1 list_file_path, manifest_lines chunk_paths),
      Except.error ("Audio combination failed: " ++ error_msg))

/-- Value of the pair returned by process_chunk: either the chunk audio path
(Python pathlib.Path) or the per-chunk error description (Python str). -/
inductive ChunkOutcome where
  | path (p : String)
  | err (e : String)
deriving DecidableEq, Repr

/-- The local constant retries = 3 of process_chunk (tasks.py line 143). -/
def RETRIES : Nat := 3

/-- The retry loop of process_chunk (tasks.py lines 144-170), starting at a
given attempt number with the given number of loop iterations left.  The
oracle attemptOutcome gives, for each 0-based attempt number, either the
synthesized audio (the try block returns) or the message of the exception the
try block raised.  The function yields the returned pair together with the
list of backoff sleeps performed, in seconds.  The fuel-exhausted case is the
return statement after the for loop (tasks.py line 170). -/
def process_chunk_loop (job_id : String) (index : Nat)
    (attemptOutcome : Nat → Except String String) :
    Nat → Nat → (Nat × ChunkOutcome) × List Nat
  | _, 0 =>
      ((index, ChunkOutcome.err ("Failed to synthesize chunk "
        ++ toString index)), [])
  | attempt, fuel + 1 =>
      match attemptOutcome attempt with
      | Except.ok _ =>
          ((index, ChunkOutcome.path (chunk_filename job_id index)), [])
      | Except.error e =>
          if attempt < RETRIES - 1 then
            let rest :=
              process_chunk_loop job_id index attemptOutcome (attempt + 1) fuel
            (rest.1, 2 * (attempt + 1) :: rest.2)
          else
            ((index, ChunkOutcome.err ("Error synthesizing chunk "
              ++ toString index ++ " after " ++ toString RETRIES
              ++ " attempts: " ++ e)), [])

/-- Embedding of the worker function process_chunk (tasks.py lines 136-170):
run the retry loop from attempt 0 with RETRIES iterations.  The chunk text is
consumed by the synthesizer, whose outcome the oracle provides per attempt;
the chunk file write shares the try block, so a write failure is one more
failed attempt of the same oracle.  The codomain is a plain pair: the worker
returns an error record on exhaustion, it never raises. -/
def process_chunk (job_id : String) (index : Nat)
    (attemptOutcome : Nat → Except String String) :
    (Nat × ChunkOutcome) × List Nat :=
  process_chunk_loop job_id index attemptOutcome 0 RETRIES

/-- Arguments of one update_job_status call: status, message, filename. -/
abbrev Update := JobStatusEnum × Option String × Option String

/-- Oracle inputs of one orchestrator run: the registry at invocation, the
arguments of convert_pdf_to_audio, the initial file system, and the outcomes
of the external capabilities (parse_pdf, chunk_text, the per-chunk per-attempt
synthesizer calls, the ffmpeg muxer). -/
structure PipelineEnv where
  jobs : JobsDict
  job_id : String
  pdf_path : String
  fs0 : List String
  parse_result : Except String String
  chunk_result : Except String (List (List String))
  attemptOutcome : Nat → Nat → Except String String
  mux : MuxRun

/-- Observable effects of one convert_pdf_to_audio run: the update_job_status
calls before the terminal one (all made while the job is being processed),
the terminal update, the scheduled deletions, the file system after the
finally block, the manifest handed to the muxer when assembly ran, the sorted
result list, the successful chunk paths, and the paths whose deletion the
finally block attempts. -/
structure RunResult where
  preUpdates : List Update
  terminal : Update
  scheduled : List (String × Nat)
  fs : List String
  manifest : Option (List String)
  results : List (Nat × ChunkOutcome)
  successfulPaths : List String
  deletions : List String

/-- The task list of tasks.py line 172 followed by asyncio.gather (line 173):
one process_chunk worker per chunk, results in task order. -/
def gatherResults (env : PipelineEnv) (sentences : List (List String)) :
    List ((Nat × ChunkOutcome) × List Nat) :=
  sentences.enum.map (fun p => process_chunk env.job_id p.1
    (env.attemptOutcome p.1))

/-- The in-place results.sort of tasks.py line 176: Python list.sort is a
stable sort by the key, here the original chunk index; any stable sort
computes the same list, and insertion sort keeps the embedding executable. -/
def sortResults (results : List (Nat × ChunkOutcome)) :
    List (Nat × ChunkOutcome) :=
  List.insertionSort (fun a b => a.1 ≤ b.1) results

/-- The comprehension of tasks.py line 179: keep, in order, the outcomes that
are paths of files existing on the file system. -/
def successfulPathsOf (fsAfter : List String)
    (results : List (Nat × ChunkOutcome)) : List String :=
  results.filterMap (fun r => match r.2 with
    | ChunkOutcome.path p => if p ∈ fsAfter then some p else none
    | ChunkOutcome.err _ => none)

/-- The comprehension of tasks.py line 180: the per-chunk error strings, in
order. -/
def errorsOf (results : List (Nat × ChunkOutcome)) : List String :=
  results.filterMap (fun r => match r.2 with
    | ChunkOutcome.path _ => none
    | ChunkOutcome.err e => some e)

/-- Chunk files written by the workers: each successful process_chunk wrote
its chunk file (tasks.py line 152). -/
def writtenChunkFiles (results : List (Nat × ChunkOutcome)) : List String :=
  results.filterMap (fun r => match r.2 with
    | ChunkOutcome.path p => some p
    | ChunkOutcome.err _ => none)

/-- The progress updates of tasks.py lines 154-159: completed_chunks counts
successes, so over a whole run the success updates carry the running counter
1/total .. succ/total in that order, whatever order the workers complete
in. -/
def progressUpdates (total succ : Nat) : List Update :=
  (List.range succ).map (fun k =>
    (JobStatusEnum.processing,
      some ("Synthesizing audio: " ++ toString (k + 1) ++ "/"
        ++ toString total ++ " chunks processed."), none))

/-- The finally block of tasks.py lines 217-230: best-effort removal of the
uploaded PDF (guarded by an existence test) and of every successful chunk
file; deletions lists the removal attempts. -/
def finishRun (env : PipelineEnv) (pre : List Update) (terminal : Update)
    (scheduled : List (String × Nat)) (fs : List String)
    (manifest : Option (List String)) (results : List (Nat × ChunkOutcome))
    (successful : List String) : RunResult :=
  let pdfExists := env.pdf_path ∈ fs
  let fs1 := if pdfExists then removeFile fs env.pdf_path else fs
  { preUpdates := pre
    terminal := terminal
    scheduled := scheduled
    fs := successful.foldl removeFile fs1
    manifest := manifest
    results := results
    successfulPaths := successful
    deletions := (if pdfExists then [env.pdf_path] else []) ++ successful }

/-- The except branch of tasks.py lines 214-216: the terminal update is
FAILED with the message "Conversion failed: " followed by the exception
description, then the finally block runs. -/
def failRun (env : PipelineEnv) (pre : List Update) (e : String)
    (fs : List String) (manifest : Option (List String))
    (results : List (Nat × ChunkOutcome)) (successful : List String) :
    RunResult :=
  finishRun env pre
    (JobStatusEnum.failed, some ("Conversion failed: " ++ e), none)
    [] fs manifest results successful

/-- Embedding of the orchestrator convert_pdf_to_audio (tasks.py lines
91-230).  Each branch accumulates the update_job_status calls in program
order; raising is modelled by entering failRun with the exception text, and
the per-chunk progress updates appear as progressUpdates between the
pre-synthesis and post-synthesis updates. -/
def convert_pdf_to_audio (env : PipelineEnv) : RunResult :=
  let u0 : List Update :=
    [(JobStatusEnum.processing,
      some "Starting PDF to audiobook conversion.", none)]
  match get_job env.jobs env.job_id with
  | none =>
      failRun env u0 ("Job " ++ env.job_id ++ " not found.") env.fs0 none [] []
  | some job =>
    if truthy job.voice then
      let u1 := u0 ++ [(JobStatusEnum.processing, some "Parsing PDF...", none)]
      match env.parse_result with
      | Except.error e => failRun env u1 e env.fs0 none [] []
      | Except.ok text =>
        if text.isEmpty then
          failRun env u1 "Could not extract text from PDF." env.fs0 none [] []
        else
          let u2 := u1
            ++ [(JobStatusEnum.processing, some "Chunking text...", none)]
          match env.chunk_result with
          | Except.error e => failRun env u2 e env.fs0 none [] []
          | Except.ok sentences =>
            if sentences.isEmpty then
              failRun env u2 "No sentences found in the PDF text."
                env.fs0 none [] []
            else
              let total := sentences.length
              let u3 := u2 ++ [(JobStatusEnum.processing,
                some ("Synthesizing " ++ toString total
                  ++ " audio chunks..."), none)]
              let results := (gatherResults env sentences).map Prod.fst
              let fsAfter := addFiles env.fs0 (writtenChunkFiles results)
              let sorted := sortResults results
              let successful := successfulPathsOf fsAfter sorted
              let errors := errorsOf sorted
              let u4 := u3 ++ progressUpdates total
                (writtenChunkFiles results).length
              if successful.isEmpty then
                failRun env u4
                  ("No audio chunks were successfully synthesized. Errors: "
                    ++ String.intercalate "; " (errors.take 5))
                  fsAfter none sorted successful
              else
                let u5 := u4 ++ [(JobStatusEnum.processing,
                  some ("Synthesized " ++ toString successful.length ++ "/"
                    ++ toString total ++ " chunks. Combining audio..."), none)]
                let comb := combine_audio_chunks fsAfter successful
                  (final_audio_path env.job_id) env.mux
                match comb.2 with
                | Except.error e =>
                    failRun env u5 e comb.1.1 (some comb.1.2) sorted successful
                | Except.ok _ =>
                    finishRun env u5
                      (JobStatusEnum.complete,
                        some "Audiobook conversion complete!",
                        some (final_audio_filename env.job_id))
                      [(final_audio_path env.job_id, 3600)]
                      comb.1.1 (some comb.1.2) sorted successful
    else
      failRun env u0 ("No voice selected for job " ++ env.job_id ++ ".")
        env.fs0 none [] []

/-- Guard conjunction of tasks.py lines 103-123: the run reaches the chunk
synthesis stage exactly when the job record is found, its voice is truthy,
parsing returns non-empty text and chunking returns a non-empty sentence
list. -/
def reachesSynthesis (env : PipelineEnv) : Bool :=
  match get_job env.jobs env.job_id with
  | none => false
  | some job =>
    truthy job.voice &&
      (match env.parse_result with
       | Except.error _ => false
       | Except.ok text =>
         !text.isEmpty &&
           (match env.chunk_result with
            | Except.error _ => false
            | Except.ok sentences => !sentences.isEmpty))

/-- The gathered per-chunk results of a run, in task order, when the run
reaches synthesis (tasks.py line 173). -/
def rawResults (env : PipelineEnv) : List (Nat × ChunkOutcome) :=
  match env.chunk_result with
  | Except.ok sentences => (gatherResults env sentences).map Prod.fst
  | Except.error _ => []

/-- Paths a pipeline run for a given job id touches in the processing and
final-audio areas: the per-chunk audio files for the chunk indices that
exist, the final artifact, and the muxer manifest.  These are the files
scoped to the job id; the uploaded source file at upload_file_location is
not among them. -/
def jobScopedPaths (job_id : String) (chunkCount : Nat) : List String :=
  (List.range chunkCount).map (chunk_filename job_id)
    ++ [final_audio_path job_id, with_suffix_txt (final_audio_path job_id)]

theorem lookup_dictSet_self (d : JobsDict) (k : String) (v : Job) :
    (dictSet d k v).lookup k = some v := by
  induction d with
  | nil => simp [dictSet, List.lookup]
  | cons p rest ih =>
    by_cases hk : p.1 = k
    · simp [dictSet, hk, List.lookup]
    · have hk2 : (k == p.1) = false := by
        simp only [beq_eq_false_iff_ne, ne_eq]
        exact fun he => hk he.symm
      simp only [dictSet, if_neg hk, List.lookup, hk2]
      exact ih

theorem lookup_dictSet_ne (d : JobsDict) (k k2 : String) (v : Job)
    (hne : k2 ≠ k) : (dictSet d k v).lookup k2 = d.lookup k2 := by
  have hne2 : (k2 == k) = false := by simpa using hne
  induction d with
  | nil => simp [dictSet, List.lookup, hne2]
  | cons p rest ih =>
    by_cases hk : p.1 = k
    · simp only [dictSet, if_pos hk, List.lookup, hne2, hk]
    · simp only [dictSet, if_neg hk, List.lookup]
      by_cases hk2 : k2 = p.1
      · simp [hk2]
      · have : (k2 == p.1) = false := by simpa using hk2
        simp only [this]
        exact ih

/-- C1: the claim fails against the code, which here is evaluated at the
failing call.  The endpoint upload_pdf calls create_job with a voice keyword
argument, but create_job declares no voice parameter, so Python keyword
binding raises TypeError before any job is created; moreover the record
create_job itself stores has no voice key, so get_job on a freshly created id
returns a record whose voice is absent (None), never the voice passed in the
request. -/
theorem C1_create_job_drops_voice :
    bindKwargs "create_job" create_job_param_names ["voice"]
      = Except.error ("create_job() got an unexpected keyword argument "
          ++ squote ++ "voice" ++ squote) ∧
    ∀ (jobs : JobsDict) (job_id : String),
      (get_job (create_job jobs job_id).2 (create_job jobs job_id).1).map
        Job.voice = some none := by
  refine ⟨rfl, ?_⟩
  intro jobs job_id
  simp [get_job, create_job, lookup_dictSet_self]

/-- C7: update_job_status called with a job id not in the registry leaves the
registry unchanged, emits exactly the diagnostic line, and returns normally
(the embedding is a total function into a pair, mirroring that the Python
method has no raise on this path). -/
theorem C7_update_unknown_id_noop (jobs : JobsDict) (job_id : String)
    (status : JobStatusEnum) (message filename : Option String)
    (h : jobs.lookup job_id = none) :
    update_job_status jobs job_id status message filename
      = (jobs, ["Error: Job ID " ++ job_id ++ " not found for update."]) := by
  unfold update_job_status
  rw [h]

theorem C7_update_unknown_id_noop_witness :
    ([] : JobsDict).lookup "missing" = none ∧
    update_job_status [] "missing" JobStatusEnum.failed none none
      = ([], ["Error: Job ID " ++ "missing" ++ " not found for update."]) :=
  ⟨rfl, C7_update_unknown_id_noop [] "missing" JobStatusEnum.failed none none
    rfl⟩

/-- C8 counterexample: the claim as stated is false for an empty-string
message.  Starting from a job whose message is "old", an update supplying
status together with message = "" leaves the message equal to "old" rather
than setting it to the supplied empty string, because update_job_status
guards the assignment with Python truthiness (if message:). -/
theorem C8_empty_string_message_ignored :
    ((update_job_status
        [("j", { status := JobStatusEnum.processing, message := "old",
                 filename := some "keep.mp3", voice := none })]
        "j" JobStatusEnum.processing (some "") none).1.lookup "j").map
      Job.message = some "old" ∧ ("old" : String) ≠ "" := by
  constructor
  · rfl
  · decide

/-- C8 amended: updating a known job id sets status unconditionally; message
and filename are set to the supplied value only when supplied and non-empty
(None or an empty string leaves the previous value); the voice field is never
touched; and every other record in the registry is unchanged. -/
theorem C8_update_frame (jobs : JobsDict) (job_id : String) (j : Job)
    (status : JobStatusEnum) (message filename : Option String)
    (h : jobs.lookup job_id = some j) :
    (update_job_status jobs job_id status message filename).1.lookup job_id
      = some { status := status
               message := if truthy message then message.getD j.message
                          else j.message
               filename := if truthy filename then filename else j.filename
               voice := j.voice } ∧
    ∀ k2, k2 ≠ job_id →
      (update_job_status jobs job_id status message filename).1.lookup k2
        = jobs.lookup k2 := by
  unfold update_job_status
  rw [h]
  refine ⟨?_, ?_⟩
  · simpa [applyUpdate] using
      lookup_dictSet_self jobs job_id (applyUpdate j status message filename)
  · intro k2 hk
    exact lookup_dictSet_ne jobs job_id k2
      (applyUpdate j status message filename) hk

theorem C8_update_frame_witness :
    (([("a", { status := JobStatusEnum.pending, message := "m0",
               filename := none, voice := none }),
       ("b", { status := JobStatusEnum.pending, message := "m1",
               filename := none, voice := none })] : JobsDict).lookup "a"
      = some { status := JobStatusEnum.pending, message := "m0",
               filename := none, voice := none }) ∧
    (update_job_status
        [("a", { status := JobStatusEnum.pending, message := "m0",
                 filename := none, voice := none }),
         ("b", { status := JobStatusEnum.pending, message := "m1",
                 filename := none, voice := none })]
        "a" JobStatusEnum.complete (some "done") (some "out.mp3")).1.lookup "a"
      = some { status := JobStatusEnum.complete, message := "done",
               filename := some "out.mp3", voice := none } ∧
    (update_job_status
        [("a", { status := JobStatusEnum.pending, message := "m0",
                 filename := none, voice := none }),
         ("b", { status := JobStatusEnum.pending, message := "m1",
                 filename := none, voice := none })]
        "a" JobStatusEnum.complete (some "done") (some "out.mp3")).1.lookup "b"
      = some { status := JobStatusEnum.pending, message := "m1",
               filename := none, voice := none } := by
  have h := C8_update_frame
    [("a", { status := JobStatusEnum.pending, message := "m0",
             filename := none, voice := none }),
     ("b", { status := JobStatusEnum.pending, message := "m1",
             filename := none, voice := none })]
    "a" { status := JobStatusEnum.pending, message := "m0",
          filename := none, voice := none }
    JobStatusEnum.complete (some "done") (some "out.mp3") (by decide)
  refine ⟨by decide, ?_, ?_⟩
  · have h1 := h.1
    simpa [truthy] using h1
  · have h2 := h.2 "b" (by decide)
    simpa using h2

theorem not_mem_removeFile (fs : List String) (p : String) :
    p ∉ removeFile fs p := by
  intro h
  have := List.of_mem_filter h
  simp at this

/-- C9: on every call to the assembler, the manifest list file it creates is
absent from the file system when the call finishes, on the success path and
on every failure path; and whenever the muxer exits non-zero the call raises
an error whose description is the RuntimeError text of tasks.py line 79 and
contains the captured stderr output as a substring. -/
theorem C9_assembler_cleanup_and_stderr (fs chunk_paths : List String)
    (final_path : String) (mux : MuxRun) :
    with_suffix_txt final_path
      ∉ (combine_audio_chunks fs chunk_paths final_path mux).1.1 ∧
    (mux.exitCode ≠ 0 →
      (combine_audio_chunks fs chunk_paths final_path mux).2
        = Except.error ("Audio combination failed: "
            ++ (if mux.stderr.isEmpty then calledProcessErrorStr mux.exitCode
                else mux.stderr)) ∧
      List.IsInfix mux.stderr.data
        ("Audio combination failed: "
            ++ (if mux.stderr.isEmpty then calledProcessErrorStr mux.exitCode
                else mux.stderr)).data) := by
  refine ⟨?_, fun hne => ⟨?_, ?_⟩⟩
  · by_cases h0 : mux.exitCode = 0
    · simp only [combine_audio_chunks, h0, if_pos rfl]
      exact not_mem_removeFile _ _
    · simp only [combine_audio_chunks, if_neg h0]
      exact not_mem_removeFile _ _
  · simp only [combine_audio_chunks, if_neg hne]
  · by_cases hs : mux.stderr.isEmpty
    · have he : mux.stderr = "" := (String.isEmpty_iff mux.stderr).mp hs
      rw [he]
      exact ⟨[], _, rfl⟩
    · rw [if_neg hs, String.data_append]
      exact ⟨"Audio combination failed: ".data, [], by simp⟩

theorem C9_assembler_cleanup_and_stderr_witness :
    ((⟨1, "boom"⟩ : MuxRun).exitCode ≠ 0) ∧
    with_suffix_txt "backend/data/final_audio/x.mp3"
      ∉ (combine_audio_chunks [] ["a.mp3"] "backend/data/final_audio/x.mp3"
          ⟨1, "boom"⟩).1.1 ∧
    (combine_audio_chunks [] ["a.mp3"] "backend/data/final_audio/x.mp3"
        ⟨1, "boom"⟩).2
      = Except.error ("Audio combination failed: boom") ∧
    List.IsInfix "boom".data ("Audio combination failed: boom").data := by
  have h := C9_assembler_cleanup_and_stderr [] ["a.mp3"]
    "backend/data/final_audio/x.mp3" ⟨1, "boom"⟩
  have h2 := h.2 (by decide)
  refine ⟨by decide, h.1, ?_, ?_⟩
  · simpa using h2.1
  · simpa using h2.2

theorem process_chunk_loop_congr (j : String) (i : Nat)
    (o o2 : Nat → Except String String) :
    ∀ fuel attempt, (∀ a, a < attempt + fuel → o a = o2 a) →
      process_chunk_loop j i o attempt fuel
        = process_chunk_loop j i o2 attempt fuel := by
  intro fuel
  induction fuel with
  | zero => intro attempt _; rfl
  | succ fuel ih =>
    intro attempt h
    have hcur : o attempt = o2 attempt := h attempt (by omega)
    unfold process_chunk_loop
    rw [← hcur]
    cases o attempt with
    | ok b => rfl
    | error e =>
      by_cases hlt : attempt < RETRIES - 1
      · simp only [if_pos hlt]
        rw [ih (attempt + 1) (fun a ha => h a (by omega))]
      · simp only [if_neg hlt]

/-- C3: per-chunk retry policy.  First, the worker consults the synthesis
oracle on at most the three attempt numbers 0, 1, 2: its outcome is
unchanged by altering the oracle anywhere else.  Second, when all three
attempts fail the worker returns (never raises) the per-chunk error record
naming the last exception, having slept 2 and then 4 seconds after the two
failed attempts that were retried (2 * attemptNumber for 1-based attempt
numbers).  Third, a permanently failed chunk does not fail the job: whenever
a run has at least one successful chunk path and the muxer exits zero, the
terminal status is COMPLETE, not FAILED. -/
theorem C3_retry_policy_and_isolation :
    (∀ (j : String) (i : Nat) (o o2 : Nat → Except String String),
      (∀ a, a < RETRIES → o a = o2 a) →
      process_chunk j i o = process_chunk j i o2) ∧
    (∀ (j : String) (i : Nat) (o : Nat → Except String String)
      (e0 e1 e2 : String),
      o 0 = Except.error e0 → o 1 = Except.error e1 → o 2 = Except.error e2 →
      process_chunk j i o
        = ((i, ChunkOutcome.err ("Error synthesizing chunk " ++ toString i
            ++ " after " ++ toString RETRIES ++ " attempts: " ++ e2)),
           [2, 4])) ∧
    (∀ env : PipelineEnv,
      (convert_pdf_to_audio env).successfulPaths ≠ [] →
      env.mux.exitCode = 0 →
      (convert_pdf_to_audio env).terminal.1 = JobStatusEnum.complete) := by
  refine ⟨?_, ?_, ?_⟩
  · intro j i o o2 h
    exact process_chunk_loop_congr j i o o2 RETRIES 0 (fun a ha => h a (by omega))
  · intro j i o e0 e1 e2 h0 h1 h2
    simp [process_chunk, RETRIES, process_chunk_loop, h0, h1, h2]
  · intro env hne h0
    revert hne
    simp only [convert_pdf_to_audio]
    repeat' split
    all_goals intro hne
    all_goals simp only [failRun, finishRun] at hne ⊢
    all_goals first
      | rfl
      | exact absurd rfl hne
      | (rename_i hs
         exact absurd (List.isEmpty_iff.mp hs) hne)
      | (rename_i e heq
         simp only [combine_audio_chunks, h0] at heq
         simp at heq)

theorem C3_retry_policy_and_isolation_witness :
    process_chunk "j" 0 (fun _ => Except.ok "b")
      = process_chunk "j" 0
          (fun a => if a < RETRIES then Except.ok "b" else Except.error "x") ∧
    process_chunk "j" 5
        (fun a => match a with
          | 0 => Except.error "e0"
          | 1 => Except.error "e1"
          | _ => Except.error "e2")
      = ((5, ChunkOutcome.err ("Error synthesizing chunk " ++ toString 5
          ++ " after " ++ toString RETRIES ++ " attempts: " ++ "e2")),
         [2, 4]) ∧
    (convert_pdf_to_audio
        { jobs := [("J", { status := JobStatusEnum.pending, message := "m",
                           filename := none, voice := some "v" })]
          job_id := "J"
          pdf_path := "backend/data/uploads/d.pdf"
          fs0 := ["backend/data/uploads/d.pdf"]
          parse_result := Except.ok "T"
          chunk_result := Except.ok [["A."], ["B."]]
          attemptOutcome := fun i _ =>
            if i = 0 then Except.error "boom" else Except.ok "bytes"
          mux := ⟨0, ""⟩ }).terminal.1 = JobStatusEnum.complete := by
  refine ⟨?_, ?_, ?_⟩
  · exact C3_retry_policy_and_isolation.1 "j" 0 _ _
      (fun a ha => (if_pos ha).symm)
  · exact C3_retry_policy_and_isolation.2.1 "j" 5 _ "e0" "e1" "e2" rfl rfl rfl
  · exact C3_retry_policy_and_isolation.2.2 _ (by decide) rfl

/-- C10: the singleton registry.  The first conjunct: a construction of
JobManager after any earlier construction returns the same object as that
earlier construction, whatever the allocator would supply.  The remaining
conjuncts evaluate the two module-level constructions (endpoints.py line 12
and tasks.py line 18) from the process-initial state: they yield the same
object, and a job created through the first construction is returned by
get_job through the second, with the record create_job stores. -/
theorem C10_singleton_registry (f1 f2 : Nat) (heap : Nat → JobsDict)
    (job_id : String) :
    (∀ (s : Option Nat) (g g2 : Nat),
      (JobManager_new (JobManager_new s g).2 g2).1
        = (JobManager_new s g).1) ∧
    (JobManager_new (JobManager_new none f1).2 f2).1
      = (JobManager_new none f1).1 ∧
    heapGetJob
        (heapCreateJob heap (JobManager_new none f1).1 job_id).2
        (JobManager_new (JobManager_new none f1).2 f2).1
        (heapCreateJob heap (JobManager_new none f1).1 job_id).1
      = some { status := JobStatusEnum.pending,
               message := "Job created, waiting to start.",
               filename := none, voice := none } := by
  refine ⟨?_, rfl, ?_⟩
  · intro s g g2
    cases s <;> rfl
  · simp [heapGetJob, heapCreateJob, get_job, create_job, JobManager_new,
      lookup_dictSet_self]

theorem forall_mem_progressUpdates (total succ : Nat) :
    ∀ u ∈ progressUpdates total succ, u.1 = JobStatusEnum.processing := by
  intro u hu
  simp only [progressUpdates, List.mem_map, List.mem_range] at hu
  obtain ⟨k, _, rfl⟩ := hu
  rfl

theorem chain_from_processing (t : Update)
    (ht : t.1 = JobStatusEnum.complete ∨ t.1 = JobStatusEnum.failed) :
    ∀ us : List Update, (∀ u ∈ us, u.1 = JobStatusEnum.processing) →
      List.Chain allowedTransition JobStatusEnum.processing
        ((us ++ [t]).map Prod.fst) := by
  intro us
  induction us with
  | nil =>
    intro _
    simp only [List.nil_append, List.map_cons, List.map_nil]
    exact List.Chain.cons (Or.inr (Or.inr ⟨rfl, ht⟩)) List.Chain.nil
  | cons u rest ih =>
    intro h
    have hu : u.1 = JobStatusEnum.processing := h u (by simp)
    simp only [List.cons_append, List.map_cons, hu]
    exact List.Chain.cons (Or.inl rfl)
      (ih (fun v hv => h v (List.mem_cons_of_mem u hv)))

theorem chain_from_pending (t : Update)
    (ht : t.1 = JobStatusEnum.complete ∨ t.1 = JobStatusEnum.failed)
    (us : List Update) (hne : us ≠ [])
    (h : ∀ u ∈ us, u.1 = JobStatusEnum.processing) :
    List.Chain allowedTransition JobStatusEnum.pending
      ((us ++ [t]).map Prod.fst) := by
  cases us with
  | nil => exact absurd rfl hne
  | cons u rest =>
    have hu : u.1 = JobStatusEnum.processing := h u (by simp)
    simp only [List.cons_append, List.map_cons, hu]
    exact List.Chain.cons (Or.inr (Or.inl ⟨rfl, rfl⟩))
      (chain_from_processing t ht rest
        (fun v hv => h v (List.mem_cons_of_mem u hv)))

/-- C5: the job state machine.  On every orchestrator run, every registry
update before the terminal one carries status PROCESSING, the terminal
update carries COMPLETE or FAILED and is the last update of the run (nothing
follows it, so a terminal status is never left), and the whole status
sequence, started from the PENDING status that create_job stores, is a chain
of the allowed transitions PENDING to PROCESSING, PROCESSING to COMPLETE,
PROCESSING to FAILED (and repetitions of the current status). -/
theorem C5_state_machine (env : PipelineEnv) :
    (∀ u ∈ (convert_pdf_to_audio env).preUpdates,
      u.1 = JobStatusEnum.processing) ∧
    ((convert_pdf_to_audio env).terminal.1 = JobStatusEnum.complete
      ∨ (convert_pdf_to_audio env).terminal.1 = JobStatusEnum.failed) ∧
    List.Chain allowedTransition JobStatusEnum.pending
      (((convert_pdf_to_audio env).preUpdates
        ++ [(convert_pdf_to_audio env).terminal]).map Prod.fst) := by
  have hb : (∀ u ∈ (convert_pdf_to_audio env).preUpdates,
        u.1 = JobStatusEnum.processing)
      ∧ ((convert_pdf_to_audio env).terminal.1 = JobStatusEnum.complete
        ∨ (convert_pdf_to_audio env).terminal.1 = JobStatusEnum.failed)
      ∧ (convert_pdf_to_audio env).preUpdates ≠ [] := by
    simp only [convert_pdf_to_audio]
    repeat' split
    all_goals simp only [failRun, finishRun]
    all_goals refine ⟨?_,
      by first
        | exact Or.inl rfl
        | exact Or.inr rfl
        | simp [failRun, finishRun],
      by simp [failRun, finishRun]⟩
    all_goals simp [progressUpdates]
    all_goals aesop
  exact ⟨hb.1, hb.2.1,
    chain_from_pending _ hb.2.1 _ hb.2.2 hb.1⟩

/-- C4: zero-success aggregation.  For every run that reaches the synthesis
stage (job found, truthy voice, non-empty parsed text, non-empty sentence
list) in which no chunk synthesizes successfully, the terminal update is
FAILED with the message that aggregates the per-chunk error descriptions,
and only the first 5 error descriptions appear in it (the list surfaced has
length at most 5). -/
theorem C4_zero_success_aggregation (env : PipelineEnv) (job : Job)
    (text : String) (sentences : List (List String))
    (hj : get_job env.jobs env.job_id = some job)
    (hv : truthy job.voice = true)
    (hp : env.parse_result = Except.ok text)
    (ht : text.isEmpty = false)
    (hc : env.chunk_result = Except.ok sentences)
    (hs : sentences.isEmpty = false)
    (hzero : successfulPathsOf
        (addFiles env.fs0 (writtenChunkFiles (rawResults env)))
        (sortResults (rawResults env)) = []) :
    (convert_pdf_to_audio env).terminal
      = (JobStatusEnum.failed,
         some ("Conversion failed: "
           ++ ("No audio chunks were successfully synthesized. Errors: "
             ++ String.intercalate "; "
               ((errorsOf (sortResults (rawResults env))).take 5))),
         none) ∧
    ((errorsOf (sortResults (rawResults env))).take 5).length ≤ 5 := by
  have hraw : rawResults env = (gatherResults env sentences).map Prod.fst := by
    simp [rawResults, hc]
  constructor
  · rw [hraw] at hzero ⊢
    simp only [convert_pdf_to_audio, hj, hv, hp, ht, hc, hs, hzero]
    simp [failRun, finishRun]
  · calc ((errorsOf (sortResults (rawResults env))).take 5).length
        ≤ 5 := by
          rw [List.length_take]
          exact Nat.min_le_left 5 _

theorem C4_zero_success_aggregation_witness :
    (convert_pdf_to_audio
        { jobs := [("J", { status := JobStatusEnum.pending, message := "m",
                           filename := none, voice := some "v" })]
          job_id := "J"
          pdf_path := "backend/data/uploads/d.pdf"
          fs0 := ["backend/data/uploads/d.pdf"]
          parse_result := Except.ok "T"
          chunk_result := Except.ok [["A."]]
          attemptOutcome := fun _ _ => Except.error "boom"
          mux := ⟨0, ""⟩ }).terminal
      = (JobStatusEnum.failed,
         some ("Conversion failed: "
           ++ ("No audio chunks were successfully synthesized. Errors: "
             ++ String.intercalate "; "
               ((errorsOf (sortResults (rawResults
                  { jobs := [("J", { status := JobStatusEnum.pending,
                                     message := "m", filename := none,
                                     voice := some "v" })]
                    job_id := "J"
                    pdf_path := "backend/data/uploads/d.pdf"
                    fs0 := ["backend/data/uploads/d.pdf"]
                    parse_result := Except.ok "T"
                    chunk_result := Except.ok [["A."]]
                    attemptOutcome := fun _ _ => Except.error "boom"
                    mux := ⟨0, ""⟩ }))).take 5))),
         none) := by
  exact (C4_zero_success_aggregation
    { jobs := [("J", { status := JobStatusEnum.pending, message := "m",
                       filename := none, voice := some "v" })]
      job_id := "J"
      pdf_path := "backend/data/uploads/d.pdf"
      fs0 := ["backend/data/uploads/d.pdf"]
      parse_result := Except.ok "T"
      chunk_result := Except.ok [["A."]]
      attemptOutcome := fun _ _ => Except.error "boom"
      mux := ⟨0, ""⟩ }
    { status := JobStatusEnum.pending, message := "m",
      filename := none, voice := some "v" }
    "T" [["A."]] (by decide) (by decide) rfl (by decide) rfl (by decide)
    (by decide)).1

theorem combine_manifest (fs cps : List String) (fp : String)
    (mux : MuxRun) :
    (combine_audio_chunks fs cps fp mux).1.2 = manifest_lines cps := by
  simp only [combine_audio_chunks]
  split <;> rfl

theorem eq_of_perm_of_pairwise_lt
    {l1 l2 : List (Nat × ChunkOutcome)} (hp : l1.Perm l2)
    (h1 : l1.Pairwise (fun a b => a.1 < b.1))
    (h2 : l2.Pairwise (fun a b => a.1 < b.1)) : l1 = l2 := by
  haveI : IsAntisymm (Nat × ChunkOutcome) (fun a b => a.1 < b.1) :=
    ⟨fun a b hab hba => absurd hba (Nat.lt_asymm hab)⟩
  exact List.eq_of_perm_of_sorted hp h1 h2

/-- C2: output ordering.  First conjunct: whatever order the gathered
results arrive in (any permutation of the canonical index-ordered list,
which has strictly increasing indices 0..N-1), the in-place sort hands the
assembler exactly the canonical list.  Second conjunct: on every run the
result list after sorting is ordered by chunk index.  Third conjunct: when
assembly runs, the manifest handed to the muxer lists exactly the successful
chunk files, one line per file, in the order of that sorted list. -/
theorem C2_output_ordering :
    (∀ (rs canonical : List (Nat × ChunkOutcome)),
      rs.Perm canonical →
      canonical.Pairwise (fun a b => a.1 < b.1) →
      sortResults rs = canonical) ∧
    (∀ env : PipelineEnv,
      (convert_pdf_to_audio env).results.Pairwise (fun a b => a.1 ≤ b.1)) ∧
    (∀ (env : PipelineEnv) (m : List String),
      (convert_pdf_to_audio env).manifest = some m →
      m = manifest_lines (convert_pdf_to_audio env).successfulPaths) := by
  haveI : IsTotal (Nat × ChunkOutcome) (fun a b => a.1 ≤ b.1) :=
    ⟨fun a b => Nat.le_total a.1 b.1⟩
  haveI : IsTrans (Nat × ChunkOutcome) (fun a b => a.1 ≤ b.1) :=
    ⟨fun _ _ _ => Nat.le_trans⟩
  refine ⟨?_, ?_, ?_⟩
  · intro rs canonical hperm hcanon
    have hsorted : (sortResults rs).Pairwise (fun a b => a.1 ≤ b.1) :=
      List.sorted_insertionSort _ rs
    have hpermS : (sortResults rs).Perm canonical :=
      (List.perm_insertionSort _ rs).trans hperm
    have hndc : (canonical.map Prod.fst).Pairwise (· < ·) :=
      List.pairwise_map.mpr hcanon
    have hndS : ((sortResults rs).map Prod.fst).Nodup := by
      have hnd : (canonical.map Prod.fst).Nodup :=
        hndc.imp Nat.ne_of_lt
      exact (hpermS.map Prod.fst).nodup_iff.mpr hnd
    have hneS : (sortResults rs).Pairwise (fun a b => a.1 ≠ b.1) :=
      List.pairwise_map.mp hndS
    have hltS : (sortResults rs).Pairwise (fun a b => a.1 < b.1) :=
      (hsorted.and hneS).imp (fun h => Nat.lt_of_le_of_ne h.1 h.2)
    exact eq_of_perm_of_pairwise_lt hpermS hltS hcanon
  · intro env
    simp only [convert_pdf_to_audio]
    repeat' split
    all_goals simp only [failRun, finishRun]
    all_goals first
      | exact List.Pairwise.nil
      | exact List.sorted_insertionSort _ _
  · intro env m
    simp only [convert_pdf_to_audio]
    repeat' split
    all_goals simp only [failRun, finishRun]
    all_goals intro hm
    all_goals first
      | (replace hm := Option.some.inj hm
         rw [← hm]
         exact combine_manifest _ _ _ _)
      | simp at hm

theorem C2_output_ordering_witness :
    ([(1, ChunkOutcome.err "b"), (0, ChunkOutcome.path "p")] :
        List (Nat × ChunkOutcome)).Perm
      [(0, ChunkOutcome.path "p"), (1, ChunkOutcome.err "b")] ∧
    ([(0, ChunkOutcome.path "p"), (1, ChunkOutcome.err "b")] :
        List (Nat × ChunkOutcome)).Pairwise (fun a b => a.1 < b.1) ∧
    sortResults [(1, ChunkOutcome.err "b"), (0, ChunkOutcome.path "p")]
      = [(0, ChunkOutcome.path "p"), (1, ChunkOutcome.err "b")] ∧
    (convert_pdf_to_audio
        { jobs := [("J", { status := JobStatusEnum.pending, message := "m",
                           filename := none, voice := some "v" })]
          job_id := "J"
          pdf_path := "backend/data/uploads/d.pdf"
          fs0 := ["backend/data/uploads/d.pdf"]
          parse_result := Except.ok "T"
          chunk_result := Except.ok [["A."], ["B."]]
          attemptOutcome := fun _ _ => Except.ok "b"
          mux := ⟨0, ""⟩ }).manifest
      = some (manifest_lines
          (convert_pdf_to_audio
            { jobs := [("J", { status := JobStatusEnum.pending,
                               message := "m", filename := none,
                               voice := some "v" })]
              job_id := "J"
              pdf_path := "backend/data/uploads/d.pdf"
              fs0 := ["backend/data/uploads/d.pdf"]
              parse_result := Except.ok "T"
              chunk_result := Except.ok [["A."], ["B."]]
              attemptOutcome := fun _ _ => Except.ok "b"
              mux := ⟨0, ""⟩ }).successfulPaths) := by
  refine ⟨by decide, by decide, ?_, ?_⟩
  · exact C2_output_ordering.1 _ _ (by decide) (by decide)
  · have hm : (convert_pdf_to_audio
        { jobs := [("J", { status := JobStatusEnum.pending, message := "m",
                           filename := none, voice := some "v" })]
          job_id := "J"
          pdf_path := "backend/data/uploads/d.pdf"
          fs0 := ["backend/data/uploads/d.pdf"]
          parse_result := Except.ok "T"
          chunk_result := Except.ok [["A."], ["B."]]
          attemptOutcome := fun _ _ => Except.ok "b"
          mux := ⟨0, ""⟩ }).manifest
      = some (manifest_lines
          ["backend/data/processing/J_chunk_0.mp3",
           "backend/data/processing/J_chunk_1.mp3"]) := by decide
    have h2 := C2_output_ordering.2.2 _ _ hm
    rw [hm, h2]

theorem chunk_filename_data (j : String) (i : Nat) :
    (chunk_filename j i).data
      = "backend/data/processing".data
        ++ ("/".data ++ (j.data ++ ("_chunk_".data
            ++ ((toString i).data ++ ".mp3".data)))) := by
  simp [chunk_filename, joinPath, PROCESSING_DIR, List.append_assoc]

theorem final_audio_path_data (j : String) :
    (final_audio_path j).data
      = "backend/data/final_audio".data
        ++ ("/".data ++ (j.data ++ ".mp3".data)) := by
  simp [final_audio_path, final_audio_filename, joinPath, FINAL_AUDIO_DIR,
    List.append_assoc]

theorem list_file_data (j : String) :
    (with_suffix_txt (final_audio_path j)).data
      = "backend/data/final_audio".data
        ++ ("/".data ++ (j.data ++ ".txt".data)) := by
  have hd : (final_audio_path j).data
      = ("backend/data/final_audio".data ++ ("/".data ++ j.data))
          ++ ".mp3".data := by
    rw [final_audio_path_data]
    simp [List.append_assoc]
  have hlen : ("backend/data/final_audio".data ++ ("/".data ++ j.data)).length
      = (final_audio_path j).data.length - 4 := by
    rw [hd]
    simp
  simp only [with_suffix_txt, String.data_append, hd, ← hlen, List.take_left]
  simp [List.append_assoc]

theorem ne_of_data_get13 {s t : String} (h : s.data[13]? ≠ t.data[13]?) :
    s ≠ t :=
  fun he => h (by rw [he])

theorem chunk_filename_get13 (j : String) (i : Nat) :
    (chunk_filename j i).data[13]? = some 'p' := by
  rw [chunk_filename_data, List.getElem?_append_left (by decide)]
  decide

theorem final_audio_path_get13 (j : String) :
    (final_audio_path j).data[13]? = some 'f' := by
  rw [final_audio_path_data, List.getElem?_append_left (by decide)]
  decide

theorem list_file_get13 (j : String) :
    (with_suffix_txt (final_audio_path j)).data[13]? = some 'f' := by
  rw [list_file_data, List.getElem?_append_left (by decide)]
  decide

theorem data_length_of_length_eq {j1 j2 : String}
    (h : j1.length = j2.length) : j1.data.length = j2.data.length := h

theorem chunk_ne_chunk {j1 j2 : String} (hne : j1 ≠ j2)
    (hlen : j1.length = j2.length) (i1 i2 : Nat) :
    chunk_filename j1 i1 ≠ chunk_filename j2 i2 := by
  intro h
  have hd := congrArg String.data h
  rw [chunk_filename_data, chunk_filename_data] at hd
  have hd2 := List.append_cancel_left (List.append_cancel_left hd)
  exact hne (String.ext
    (List.append_inj hd2 (data_length_of_length_eq hlen)).1)

theorem final_ne_final {j1 j2 : String} (hne : j1 ≠ j2)
    (hlen : j1.length = j2.length) :
    final_audio_path j1 ≠ final_audio_path j2 := by
  intro h
  have hd := congrArg String.data h
  rw [final_audio_path_data, final_audio_path_data] at hd
  have hd2 := List.append_cancel_left (List.append_cancel_left hd)
  exact hne (String.ext
    (List.append_inj hd2 (data_length_of_length_eq hlen)).1)

theorem list_ne_list {j1 j2 : String} (hne : j1 ≠ j2)
    (hlen : j1.length = j2.length) :
    with_suffix_txt (final_audio_path j1)
      ≠ with_suffix_txt (final_audio_path j2) := by
  intro h
  have hd := congrArg String.data h
  rw [list_file_data, list_file_data] at hd
  have hd2 := List.append_cancel_left (List.append_cancel_left hd)
  exact hne (String.ext
    (List.append_inj hd2 (data_length_of_length_eq hlen)).1)

theorem chunk_ne_final (j1 j2 : String) (i : Nat) :
    chunk_filename j1 i ≠ final_audio_path j2 :=
  ne_of_data_get13 (by
    rw [chunk_filename_get13, final_audio_path_get13]
    decide)

theorem chunk_ne_list (j1 j2 : String) (i : Nat) :
    chunk_filename j1 i ≠ with_suffix_txt (final_audio_path j2) :=
  ne_of_data_get13 (by
    rw [chunk_filename_get13, list_file_get13]
    decide)

theorem final_ne_list {j1 j2 : String} (hlen : j1.length = j2.length) :
    final_audio_path j1 ≠ with_suffix_txt (final_audio_path j2) := by
  intro h
  have hd := congrArg String.data h
  rw [final_audio_path_data, list_file_data] at hd
  have hd2 := List.append_cancel_left (List.append_cancel_left hd)
  have := (List.append_inj hd2 (data_length_of_length_eq hlen)).2
  exact absurd this (by decide)

/-- C6 counterexample: the claim fails for the uploaded source file.  Two
runs with the distinct job ids jobA and jobB whose clients uploaded the same
file name doc.pdf both delete the very same path (UPLOAD_DIR/doc.pdf) in
their cleanup phase: the uploaded source file's path carries the
client-chosen file name and no job id, so the two runs' sets of
created-or-deleted paths are not disjoint. -/
theorem C6_counterexample_shared_upload_path :
    ("jobA" : String) ≠ "jobB" ∧
    upload_file_location "doc.pdf"
      ∈ (convert_pdf_to_audio
          { jobs := []
            job_id := "jobA"
            pdf_path := upload_file_location "doc.pdf"
            fs0 := [upload_file_location "doc.pdf"]
            parse_result := Except.error "x"
            chunk_result := Except.error "x"
            attemptOutcome := fun _ _ => Except.error "x"
            mux := ⟨1, ""⟩ }).deletions ∧
    upload_file_location "doc.pdf"
      ∈ (convert_pdf_to_audio
          { jobs := []
            job_id := "jobB"
            pdf_path := upload_file_location "doc.pdf"
            fs0 := [upload_file_location "doc.pdf"]
            parse_result := Except.error "x"
            chunk_result := Except.error "x"
            attemptOutcome := fun _ _ => Except.error "x"
            mux := ⟨1, ""⟩ }).deletions := by
  decide

/-- C6 amended: the job-id-scoped transient paths of a run (the per-chunk
audio files, the final artifact and the muxer manifest) all embed the job id
and are disjoint between any two jobs with distinct ids of equal length
(uuid4 ids always have equal length); the uploaded source file is the
exception the counterexample exhibits, living under the client-chosen file
name with no job id in its path. -/
theorem C6_job_scoped_paths_disjoint (j1 j2 : String) (hne : j1 ≠ j2)
    (hlen : j1.length = j2.length) (n1 n2 : Nat) :
    ∀ p ∈ jobScopedPaths j1 n1, p ∉ jobScopedPaths j2 n2 := by
  intro p hp hq
  simp only [jobScopedPaths, List.mem_append, List.mem_map, List.mem_range,
    List.mem_cons, List.mem_singleton, List.not_mem_nil, or_false] at hp hq
  rcases hp with ⟨i1, _, rfl⟩ | rfl | rfl <;>
    rcases hq with ⟨i2, _, h⟩ | h | h
  · exact chunk_ne_chunk hne.symm hlen.symm i2 i1 h
  · exact chunk_ne_final j1 j2 i1 h
  · exact chunk_ne_list j1 j2 i1 h
  · exact chunk_ne_final j2 j1 i2 h
  · exact final_ne_final hne hlen h
  · exact final_ne_list hlen h
  · exact chunk_ne_list j2 j1 i2 h
  · exact final_ne_list hlen.symm h.symm
  · exact list_ne_list hne hlen h

theorem C6_job_scoped_paths_disjoint_witness :
    ("aaaa" : String) ≠ "bbbb" ∧
    ("aaaa" : String).length = ("bbbb" : String).length ∧
    chunk_filename "aaaa" 0 ∈ jobScopedPaths "aaaa" 2 ∧
    chunk_filename "aaaa" 0 ∉ jobScopedPaths "bbbb" 2 := by
  refine ⟨by decide, by decide, by decide, ?_⟩
  exact C6_job_scoped_paths_disjoint "aaaa" "bbbb" (by decide) (by decide)
    2 2 (chunk_filename "aaaa" 0) (by decide)

end StorySpeeks
